import Mathlib

/-!
Verification of the OIDN core object layer (src/core/api.cpp, src/core/image.cpp)
against its natural-language specification.

The C++ code is shallowly embedded: size_t arithmetic is Nat reduced modulo 2^64
where the source computes in machine words, thrown exceptions become an
`Except Exn` result, and the stateful C ABI entry points become pure functions
from the relevant object states to (updated state, return value, error-channel
effect).  Declarations whose bodies live outside the provided sources (image.h,
device.h, the engine) are modelled from the specification and say so in their
doc comments.
-/

deriving instance DecidableEq for Except

namespace oidn

/-- Error codes of the public API (spec section 6, `Error` enumeration). -/
inductive Error where
  | none
  | unknown
  | invalidArgument
  | invalidOperation
  | outOfMemory
  | unsupportedHardware
  | cancelled
deriving DecidableEq, Repr

/-- Compute backends a device may be bound to (spec section 2). -/
inductive Backend where
  | cpu
  | sycl
  | cuda
  | hip
deriving DecidableEq, Repr

/-- Image formats of the public API (spec section 6, `Format` enumeration):
`Undefined`, `Float`..`Float4`, `Half`..`Half4`. -/
inductive Format where
  | undefined
  | float
  | float2
  | float3
  | float4
  | half
  | half2
  | half3
  | half4
deriving DecidableEq, Repr

/-- Modelled from the spec: the channel count encoded by a `Format`
(spec section 3: "format (enum encoding channel count + data type)").
The implementation (`getC`, declared in image.h) is not among the provided
sources. -/
def Format.getC : Format → Nat
  | .undefined => 0
  | .float => 1
  | .float2 => 2
  | .float3 => 3
  | .float4 => 4
  | .half => 1
  | .half2 => 2
  | .half3 => 3
  | .half4 => 4

/-- Modelled from the spec: byte size of one pixel of a `Format`, i.e. channel
count times the data type size (Float32 is 4 bytes, Float16 is 2 bytes; spec
sections 3 and 6).  The implementation (`getFormatSize`) is not among the
provided sources. -/
def getFormatSize : Format → Nat
  | .undefined => 0
  | .float => 4
  | .float2 => 8
  | .float3 => 12
  | .float4 => 16
  | .half => 2
  | .half2 => 4
  | .half3 => 6
  | .half4 => 8

/-- `std::numeric_limits<int>::max()` for the 32-bit `int` of the target ABI. -/
def intMax : Nat := 2147483647

/-- Truncation to the 64-bit `size_t` of the target ABI: the value of a
machine-word computation whose mathematical value is `n`. -/
def szt (n : Nat) : Nat := n % 2 ^ 64

/-- The `(int)` casts applied to `width` and `height` at the C ABI
(api.cpp lines 489 and 504), re-widened to `size_t` by the `Image` constructor
parameters: truncation to 32 bits followed by sign extension to 64 bits. -/
def i32toSize (n : Nat) : Nat :=
  let r := n % 2 ^ 32
  if r < 2 ^ 31 then r else 2 ^ 64 - 2 ^ 32 + r

/-- Failure signals that can cross an `OIDN_TRY` scope (api.cpp lines 11-36):
an `oidn::Exception` carrying an error code and message, `std::bad_alloc`,
a `dnnl::error` (with an out-of-memory status flag), any other
`std::exception` carrying a message, or an unrecognized exception. -/
inductive Exn where
  | typed (code : Error) (msg : String)
  | badAlloc
  | dnnlErr (oom : Bool) (msg : String)
  | stdExc (msg : String)
  | otherExc
deriving DecidableEq, Repr

/-- `ImageDesc` (spec section 3): width, height, format and the two byte
strides. -/
structure ImageDesc where
  width : Nat
  height : Nat
  format : Format
  wByteStride : Nat
  hByteStride : Nat
deriving DecidableEq, Repr

/-- `ImageDesc::ImageDesc` (image.cpp lines 8-34).  `maxDim` is the image
dimension limit; its value is declared outside the provided sources, so it is
taken as an explicit parameter here.  All products are `size_t` products. -/
def ImageDesc.make (maxDim : Nat) (format : Format)
    (width height pixelByteStride rowByteStride : Nat) : Except Exn ImageDesc :=
  if width > maxDim ∨ height > maxDim ∨ szt (szt (width * height) * format.getC) > intMax then
    .error (.typed .invalidArgument "image size too large")
  else
    let pixelByteSize := getFormatSize format
    let wRes : Except Exn Nat :=
      if pixelByteStride ≠ 0 then
        if pixelByteStride < pixelByteSize then
          .error (.typed .invalidArgument "pixel stride smaller than pixel size")
        else
          .ok pixelByteStride
      else
        .ok pixelByteSize
    match wRes with
    | .error e => .error e
    | .ok wByteStride =>
      if rowByteStride ≠ 0 then
        if rowByteStride < szt (width * wByteStride) then
          .error (.typed .invalidArgument "row stride smaller than width * pixel stride")
        else
          .ok ⟨width, height, format, wByteStride, rowByteStride⟩
      else
        .ok ⟨width, height, format, wByteStride, szt (width * wByteStride)⟩

/-- Modelled from the spec: `Image::getByteSize` (declared in image.h, not
among the provided sources); spec section 3: "Byte size is
height · hByteStride". -/
def ImageDesc.getByteSize (d : ImageDesc) : Nat := szt (d.height * d.hByteStride)

/-- A `Buffer` as far as the image and ABI layers observe it (spec section 3):
an identity (for aliasing comparison of backing buffers), the owning device,
the immutable byte size, and the base address of its data. -/
structure Buffer where
  id : Nat
  deviceId : Nat
  byteSize : Nat
  dataPtr : Nat
deriving DecidableEq, Repr

/-- An `Image` (spec section 3): an `ImageDesc` plus either a raw pointer or a
buffer + offset pair.  `ptr` is the cached byte address (0 is the null
pointer); `bufferId` is the identity of the backing buffer, `none` when the
image is backed only by a raw pointer. -/
structure Image extends ImageDesc where
  bufferId : Option Nat
  byteOffset : Nat
  ptr : Nat
deriving DecidableEq, Repr

/-- `Image::Image(void* ptr, ...)`, the raw-pointer constructor
(image.cpp lines 40-47). -/
def Image.makeShared (maxDim : Nat) (ptr : Nat) (format : Format)
    (width height byteOffset pixelByteStride rowByteStride : Nat) : Except Exn Image :=
  match ImageDesc.make maxDim format width height pixelByteStride rowByteStride with
  | .error e => .error e
  | .ok desc =>
      if ptr = 0 ∧ szt (byteOffset + desc.getByteSize) > 0 then
        .error (.typed .invalidArgument "buffer region out of range")
      else
        .ok { toImageDesc := desc, bufferId := none, byteOffset := 0,
              ptr := szt (ptr + byteOffset) }

/-- `Image::Image(const Ref<Buffer>&, Format, ...)`, the buffer-backed
constructor (image.cpp lines 59-67). -/
def Image.makeFromBuffer (maxDim : Nat) (buffer : Buffer) (format : Format)
    (width height byteOffset pixelByteStride rowByteStride : Nat) : Except Exn Image :=
  match ImageDesc.make maxDim format width height pixelByteStride rowByteStride with
  | .error e => .error e
  | .ok desc =>
      if szt (byteOffset + desc.getByteSize) > buffer.byteSize then
        .error (.typed .invalidArgument "buffer region out of range")
      else
        .ok { toImageDesc := desc, bufferId := some buffer.id, byteOffset := byteOffset,
              ptr := szt (buffer.dataPtr + byteOffset) }

/-- Modelled from the spec: `Image::begin` (declared in image.h, not among the
provided sources) is the first byte address of the image data. -/
def Image.begin (img : Image) : Nat := img.ptr

/-- Modelled from the spec: `Image::end` (declared in image.h, not among the
provided sources) is one past the last byte address, `begin + byteSize`
(`end` is a reserved word here, hence the name). -/
def Image.endAddr (img : Image) : Nat := szt (img.ptr + img.toImageDesc.getByteSize)

/-- `Image::overlaps` (image.cpp lines 122-138). -/
def Image.overlaps (img other : Image) : Bool :=
  if img.ptr = 0 ∨ other.ptr = 0 then
    false
  else if img.bufferId ≠ other.bufferId then
    false
  else
    decide (img.begin < other.endAddr ∧ other.begin < img.endAddr)

/-- The per-device sticky error channel and commit state a `Device` exposes to
the ABI layer (spec sections 3 and 4.3): an identity, the backend it is bound
to, the commit flag, the sticky `(kind, message)` error slot, and the bitmask
of advertised external memory types. -/
structure Device where
  id : Nat
  backend : Backend
  committed : Bool
  errorSlot : Error × String
  externalMemoryTypes : Nat
deriving DecidableEq, Repr

/-- The record of one `Device::setError` call made by an `OIDN_CATCH` handler:
the target device (`none` when no device is derivable from the handle) and the
error kind and message passed. -/
structure SetErrorCall where
  target : Option Nat
  code : Error
  msg : String
deriving DecidableEq, Repr

/-- The exception dispatch of `OIDN_CATCH` with `OIDN_CATCH_DNNL`
(api.cpp lines 15-36): handlers are tried in source order — `oidn::Exception`,
`std::bad_alloc`, `dnnl::error` (out-of-memory status or other),
`std::exception`, then catch-all — and each one calls `Device::setError` on
`obj ? obj->getDevice() : nullptr`. -/
def handleException (target : Option Nat) : Exn → SetErrorCall
  | .typed code msg => ⟨target, code, msg⟩
  | .badAlloc => ⟨target, .outOfMemory, "out of memory"⟩
  | .dnnlErr true _ => ⟨target, .outOfMemory, "out of memory"⟩
  | .dnnlErr false msg => ⟨target, .unknown, msg⟩
  | .stdExc msg => ⟨target, .unknown, msg⟩
  | .otherExc => ⟨target, .unknown, "unknown exception caught"⟩

/-- Writing an error into a device's sticky error slot (spec section 4.2:
last write wins). -/
def Device.recordError (d : Device) (c : SetErrorCall) : Device :=
  { d with errorSlot := (c.code, c.msg) }

/-- `checkHandle` (api.cpp lines 60-64) throws `InvalidArgument` on a null
handle; the embedding also returns the object behind a non-null handle. -/
def getHandle {α : Type} (handle : Option α) : Except Exn α :=
  match handle with
  | none => .error (.typed .invalidArgument "invalid handle")
  | some a => .ok a

/-- Modelled from the spec: `Device::checkCommitted` (declared outside the
provided sources); spec section 4.3: before commit "all child-creation APIs
fail with InvalidOperation". -/
def Device.checkCommitted (d : Device) : Except Exn Unit :=
  if d.committed then .ok () else .error (.typed .invalidOperation "the device is not committed")

/-- Modelled from the spec: `Device::commit` (declared outside the provided
sources); spec section 4.3: idempotent, transitions the device to committed
and constructs the engine. -/
def Device.commit (d : Device) : Device :=
  { d with committed := true }

/-- Modelled from the spec: `Engine::newBuffer` (the engine is an external
collaborator); it allocates a buffer of the requested size on the device. -/
def Device.engineNewBuffer (d : Device) (byteSize : Nat) : Buffer :=
  { id := 0, deviceId := d.id, byteSize := byteSize, dataPtr := 1 }

/-- Modelled from the spec: `Engine::newExternalBuffer` (the engine is an
external collaborator); it imports the external memory object as a buffer. -/
def Device.engineNewExternalBuffer (d : Device) (byteSize : Nat) : Buffer :=
  { id := 0, deviceId := d.id, byteSize := byteSize, dataPtr := 1 }

/-- A `Filter` as far as the ABI layer observes it (spec sections 3 and 4.6):
the owning device and the named image slots. -/
structure Filter where
  device : Device
  filterType : String
  images : List (String × Image)
deriving DecidableEq, Repr

/-- Modelled from the spec: `Device::newFilter` (declared outside the provided
sources) creates a filter of the given type bound to this device. -/
def Device.newFilter (d : Device) (type : String) : Filter :=
  ⟨d, type, []⟩

/-- Modelled from the spec: `Filter::setImage` (declared outside the provided
sources) binds an `Image` to the named slot, replacing any previous binding. -/
def Filter.setImage (f : Filter) (name : String) (img : Image) : Filter :=
  { f with images := (name, img) :: f.images.filter (fun p => p.1 != name) }

/-- The `OIDN_TRY`/`OIDN_CATCH` wrapper of a device entry point: a normal
return passes the (possibly updated) device and return value through; a
failure is converted to a `Device::setError` call on the device derived from
the handle (or on no device when the handle is null) and the sentinel value is
returned. -/
def catchDevice {α : Type} (hDevice : Option Device) (sentinel : α)
    (body : Except Exn (Device × α)) : Option Device × α × Option SetErrorCall :=
  match body with
  | .ok (d, a) => (some d, a, none)
  | .error e =>
      let c := handleException (hDevice.map Device.id) e
      (hDevice.map (fun d => d.recordError c), sentinel, some c)

/-- The `OIDN_TRY`/`OIDN_CATCH` wrapper of a filter entry point; the error
target is the filter's device. -/
def catchFilter {α : Type} (hFilter : Option Filter) (sentinel : α)
    (body : Except Exn (Filter × α)) : Option Filter × α × Option SetErrorCall :=
  match body with
  | .ok (f, a) => (some f, a, none)
  | .error e =>
      let c := handleException (hFilter.map (fun f => f.device.id)) e
      (hFilter.map (fun f => { f with device := f.device.recordError c }), sentinel, some c)

/-- `oidnCommitDevice` (api.cpp lines 258-266). -/
def oidnCommitDevice (hDevice : Option Device) : Option Device × Unit × Option SetErrorCall :=
  catchDevice hDevice () (do
    let d ← getHandle hDevice
    pure (d.commit, ()))

/-- `oidnNewBuffer` (api.cpp lines 278-289). -/
def oidnNewBuffer (hDevice : Option Device) (byteSize : Nat) :
    Option Device × Option Buffer × Option SetErrorCall :=
  catchDevice hDevice none (do
    let d ← getHandle hDevice
    d.checkCommitted
    pure (d, some (d.engineNewBuffer byteSize)))

/-- `oidnNewFilter` (api.cpp lines 450-461). -/
def oidnNewFilter (hDevice : Option Device) (type : String) :
    Option Device × Option Filter × Option SetErrorCall :=
  catchDevice hDevice none (do
    let d ← getHandle hDevice
    d.checkCommitted
    pure (d, some (d.newFilter type)))

/-- `oidnNewSharedBufferFromFD` (api.cpp lines 317-333). -/
def oidnNewSharedBufferFromFD (hDevice : Option Device) (fdType : Nat) (fd : Int)
    (byteSize : Nat) : Option Device × Option Buffer × Option SetErrorCall :=
  catchDevice hDevice none (do
    let d ← getHandle hDevice
    d.checkCommitted
    if fdType &&& d.externalMemoryTypes = 0 then
      Except.error (.typed .invalidArgument "external memory type not supported by the device")
    else
      pure (d, some (d.engineNewExternalBuffer byteSize)))

/-- `oidnNewSharedBufferFromWin32Handle` (api.cpp lines 335-353); `handle` and
`name` record whether the respective pointer argument is non-null. -/
def oidnNewSharedBufferFromWin32Handle (hDevice : Option Device) (handleType : Nat)
    (handle : Bool) (name : Bool) (byteSize : Nat) :
    Option Device × Option Buffer × Option SetErrorCall :=
  catchDevice hDevice none (do
    let d ← getHandle hDevice
    d.checkCommitted
    if handleType &&& d.externalMemoryTypes = 0 then
      Except.error (.typed .invalidArgument "external memory type not supported by the device")
    else if (!handle && !name) || (handle && name) then
      Except.error (.typed .invalidArgument "exactly one of the external memory handle and name must be non-null")
    else
      pure (d, some (d.engineNewExternalBuffer byteSize)))

/-- `oidnSetFilterImage` (api.cpp lines 475-492). -/
def oidnSetFilterImage (maxDim : Nat) (hFilter : Option Filter) (name : String)
    (hBuffer : Option Buffer) (format : Format)
    (width height byteOffset pixelByteStride rowByteStride : Nat) :
    Option Filter × Unit × Option SetErrorCall :=
  catchFilter hFilter () (do
    let f ← getHandle hFilter
    let buffer ← getHandle hBuffer
    if buffer.deviceId ≠ f.device.id then
      Except.error (.typed .invalidArgument "the specified objects are bound to different devices")
    else do
      let image ← Image.makeFromBuffer maxDim buffer format (i32toSize width) (i32toSize height)
        byteOffset pixelByteStride rowByteStride
      pure (f.setImage name image, ()))

/-- `oidnSetSharedFilterImage` (api.cpp lines 494-507); `devPtr` is the byte
address of the raw pointer argument (0 is the null pointer). -/
def oidnSetSharedFilterImage (maxDim : Nat) (hFilter : Option Filter) (name : String)
    (devPtr : Nat) (format : Format)
    (width height byteOffset pixelByteStride rowByteStride : Nat) :
    Option Filter × Unit × Option SetErrorCall :=
  catchFilter hFilter () (do
    let f ← getHandle hFilter
    let image ← Image.makeShared maxDim devPtr format (i32toSize width) (i32toSize height)
      byteOffset pixelByteStride rowByteStride
    pure (f.setImage name image, ()))

/-- A SYCL completion event: either the default-constructed empty event or an
event identity produced by the engine. -/
inductive SYCLEvent where
  | empty
  | ev (id : Nat)
deriving DecidableEq, Repr

/-- `oidnExecuteSYCLFilterAsync` (api.cpp lines 655-690).
`doneEventRequested` records whether the `doneEvent` output pointer is
non-null, and the returned `Option SYCLEvent` is the value written through it
(`none` when nothing is written).  The filter execution itself is dispatched
to the engine (an external collaborator); the completion events subsequently
returned by `getDoneEvents` are therefore a parameter `doneEvents` of the
model. -/
def oidnExecuteSYCLFilterAsync (hFilter : Option Filter) (numDepEvents : Int)
    (doneEventRequested : Bool) (doneEvents : List SYCLEvent) :
    Option Filter × Option SYCLEvent × Option SetErrorCall :=
  catchFilter hFilter none (do
    let f ← getHandle hFilter
    if numDepEvents < 0 then
      Except.error (.typed .invalidArgument "invalid number of dependent events")
    else if f.device.backend ≠ .sycl then
      Except.error (.typed .invalidArgument "filter does not belong to a SYCL device")
    else if doneEventRequested then
      match doneEvents with
      | [e] => pure (f, some e)
      | [] => pure (f, some .empty)
      | _ => Except.error (.stdExc "missing barrier after filter kernels")
    else
      pure (f, none))

/-- One observable step of the destruction path of `releaseObject`
(api.cpp lines 81-107): taking the owning device's mutex, draining async work
via `wait`, running the object's teardown via `destroy`, or a
`Device::setError` call made by the catch handler. -/
inductive ReleaseAction where
  | lockMutex
  | wait
  | destroy
  | setErr (code : Error) (msg : String)
deriving DecidableEq, Repr

/-- Modelled from the spec: `decRefKeep` (declared outside the provided
sources); spec section 4.1: an atomic fetch-and-decrement of the reference
count, returning the previous value.  The result is (value read by the
caller, new count). -/
def decRefKeep (refCount : Nat) : Nat × Nat :=
  (refCount, refCount - 1)

/-- `releaseObject<T>` for non-device objects (api.cpp lines 81-93): the new
reference count (for a non-null handle) and the trace of destruction steps. -/
def releaseObject (obj : Option Nat) : Option Nat × List ReleaseAction :=
  match obj with
  | none => (none, [.setErr .invalidArgument "invalid handle"])
  | some refCount =>
      let r := decRefKeep refCount
      if r.1 = 0 then
        (some r.2, [.lockMutex, .wait, .destroy])
      else
        (some r.2, [])

/-- The `releaseObject<Device>` specialization (api.cpp lines 95-107): the
device is not locked because it owns the mutex. -/
def releaseDevice (obj : Option Nat) : Option Nat × List ReleaseAction :=
  match obj with
  | none => (none, [.setErr .invalidArgument "invalid handle"])
  | some refCount =>
      let r := decRefKeep refCount
      if r.1 = 0 then
        (some r.2, [.wait, .destroy])
      else
        (some r.2, [])

/-- Classifier used to state the error-translation claim: whether a failure
signal is a host (`std::bad_alloc`) or backend (`dnnl` out-of-memory status)
out-of-memory signal. -/
def Exn.isOutOfMemorySignal : Exn → Bool
  | .badAlloc => true
  | .dnnlErr oom _ => oom
  | _ => false

/-- Classifier used to state the error-translation claim: the message carried
by a failure signal, when it carries one. -/
def Exn.message : Exn → Option String
  | .typed _ m => some m
  | .badAlloc => none
  | .dnnlErr _ m => some m
  | .stdExc m => some m
  | .otherExc => none

theorem getC_le_four (f : Format) : f.getC ≤ 4 := by
  cases f <;> simp [Format.getC]

theorem getFormatSize_le_sixteen (f : Format) : getFormatSize f ≤ 16 := by
  cases f <;> simp [getFormatSize]

theorem szt_eq_of_lt {n : Nat} (h : n < 2 ^ 64) : szt n = n :=
  Nat.mod_eq_of_lt h

theorem i32toSize_eq_of_lt {n : Nat} (h : n < 2 ^ 31) : i32toSize n = n := by
  have h32 : n < 2 ^ 32 := lt_trans h (by norm_num)
  simp only [i32toSize, Nat.mod_eq_of_lt h32]
  exact if_pos h

theorem ImageDesc.make_ok_iff (maxDim : Nat) (format : Format) (w h pbs rbs : Nat)
    (desc : ImageDesc) :
    ImageDesc.make maxDim format w h pbs rbs = .ok desc ↔
      ¬(w > maxDim ∨ h > maxDim ∨ szt (szt (w * h) * format.getC) > intMax) ∧
      (pbs ≠ 0 → ¬ pbs < getFormatSize format) ∧
      (rbs ≠ 0 → ¬ rbs < szt (w * (if pbs = 0 then getFormatSize format else pbs))) ∧
      desc = ⟨w, h, format,
              if pbs = 0 then getFormatSize format else pbs,
              if rbs = 0 then szt (w * (if pbs = 0 then getFormatSize format else pbs))
              else rbs⟩ := by
  unfold ImageDesc.make
  by_cases hg : w > maxDim ∨ h > maxDim ∨ szt (szt (w * h) * format.getC) > intMax
  · simp [hg]
  · by_cases hp : pbs = 0
    · by_cases hr : rbs = 0
      · simp [hg, hp, hr, eq_comm]
      · by_cases hrc : rbs < szt (w * getFormatSize format)
        · simp [hg, hp, hr, hrc]
        · simp [hg, hp, hr, hrc, eq_comm]
    · by_cases hpc : pbs < getFormatSize format
      · simp [hg, hp, hpc]
      · by_cases hr : rbs = 0
        · simp [hg, hp, hpc, hr, eq_comm]
        · by_cases hrc : rbs < szt (w * pbs)
          · simp [hg, hp, hpc, hr, hrc]
          · simp [hg, hp, hpc, hr, hrc, eq_comm]

theorem ImageDesc.make_error_code (maxDim : Nat) (format : Format) (w h pbs rbs : Nat)
    (e : Exn) (he : ImageDesc.make maxDim format w h pbs rbs = .error e) :
    ∃ m, e = .typed .invalidArgument m := by
  unfold ImageDesc.make at he
  by_cases hg : w > maxDim ∨ h > maxDim ∨ szt (szt (w * h) * format.getC) > intMax
  · simp [hg] at he
    exact ⟨_, he.symm⟩
  · by_cases hp : pbs = 0
    · by_cases hr : rbs = 0
      · simp [hg, hp, hr] at he
      · by_cases hrc : rbs < szt (w * getFormatSize format)
        · simp [hg, hp, hr, hrc] at he
          exact ⟨_, he.symm⟩
        · simp [hg, hp, hr, hrc] at he
    · by_cases hpc : pbs < getFormatSize format
      · simp [hg, hp, hpc] at he
        exact ⟨_, he.symm⟩
      · by_cases hr : rbs = 0
        · simp [hg, hp, hpc, hr] at he
        · by_cases hrc : rbs < szt (w * pbs)
          · simp [hg, hp, hpc, hr, hrc] at he
            exact ⟨_, he.symm⟩
          · simp [hg, hp, hpc, hr, hrc] at he

/-- C1: `overlaps` returns false when either image has a null pointer or when
the backing buffers differ, and otherwise returns true exactly when the byte
intervals `[begin, end)` intersect.  Amended part: two images backed only by
raw pointers both have an absent backing buffer, so they are compared by byte
interval like images sharing a buffer, and overlap exactly when their
intervals intersect. -/
theorem overlaps_characterization (i j : Image) :
    (i.ptr = 0 ∨ j.ptr = 0 → i.overlaps j = false) ∧
    (i.bufferId ≠ j.bufferId → i.overlaps j = false) ∧
    (i.ptr ≠ 0 → j.ptr ≠ 0 → i.bufferId = j.bufferId →
      (i.overlaps j = true ↔ i.begin < j.endAddr ∧ j.begin < i.endAddr)) ∧
    (i.ptr ≠ 0 → j.ptr ≠ 0 → i.bufferId = none → j.bufferId = none →
      (i.overlaps j = true ↔ i.begin < j.endAddr ∧ j.begin < i.endAddr)) := by
  refine ⟨?_, ?_, ?_, ?_⟩
  · intro hz
    unfold Image.overlaps
    simp [hz]
  · intro hb
    unfold Image.overlaps
    by_cases hz : i.ptr = 0 ∨ j.ptr = 0 <;> simp [hz, hb]
  · intro hi hj hb
    unfold Image.overlaps
    simp [hi, hj, hb]
  · intro hi hj hbi hbj
    unfold Image.overlaps
    simp [hi, hj, hbi, hbj]

/-- C1 counterexample: two images constructed through the raw-pointer
constructor (no backing buffer) whose byte intervals intersect do overlap,
contrary to the claim that raw-pointer images never overlap. -/
theorem overlaps_raw_pointer_counterexample :
    Image.makeShared 65536 100 .float 1 1 0 0 0 =
      .ok { toImageDesc := ⟨1, 1, .float, 4, 4⟩, bufferId := none, byteOffset := 0,
            ptr := 100 } ∧
    Image.makeShared 65536 102 .float 1 1 0 0 0 =
      .ok { toImageDesc := ⟨1, 1, .float, 4, 4⟩, bufferId := none, byteOffset := 0,
            ptr := 102 } ∧
    Image.overlaps
      { toImageDesc := ⟨1, 1, .float, 4, 4⟩, bufferId := none, byteOffset := 0, ptr := 100 }
      { toImageDesc := ⟨1, 1, .float, 4, 4⟩, bufferId := none, byteOffset := 0, ptr := 102 } =
      true := by
  refine ⟨by decide, by decide, by decide⟩

/-- C1 witness: the interval test of the third conjunct evaluated on two
concrete buffer-backed images over the same buffer. -/
theorem overlaps_characterization_witness :
    Image.overlaps
      { toImageDesc := ⟨1, 1, .float, 4, 4⟩, bufferId := some 7, byteOffset := 0, ptr := 100 }
      { toImageDesc := ⟨1, 1, .float, 4, 4⟩, bufferId := some 7, byteOffset := 2, ptr := 102 } =
      true :=
  ((overlaps_characterization
      { toImageDesc := ⟨1, 1, .float, 4, 4⟩, bufferId := some 7, byteOffset := 0, ptr := 100 }
      { toImageDesc := ⟨1, 1, .float, 4, 4⟩, bufferId := some 7, byteOffset := 2, ptr := 102 }
    ).2.2.1 (by decide) (by decide) (by decide)).mpr (by decide)

/-- C2 counterexample: on an object whose reference count is 1, the caller
reads 1 from the decrement (`decRefKeep` returning the previous value, as the
spec states) and `releaseObject` does not destroy the object, since the source
destroys only when the value it reads is 0. -/
theorem release_reads_one_counterexample :
    (decRefKeep 1).1 = 1 ∧ ReleaseAction.destroy ∉ (releaseObject (some 1)).2 := by
  decide

/-- C2 amended: `releaseObject` destroys exactly when the value it reads from
the decrement is 0; the destruction sequence takes the device mutex, waits,
then destroys — except for the `Device` specialization, which never takes the
mutex but still waits before destroying. -/
theorem release_destroy_exactly_on_zero (rc : Nat) :
    (decRefKeep rc).1 = rc ∧
    (releaseObject (some rc)).2 =
      (if rc = 0 then [.lockMutex, .wait, .destroy] else []) ∧
    (releaseDevice (some rc)).2 =
      (if rc = 0 then [.wait, .destroy] else []) ∧
    (ReleaseAction.destroy ∈ (releaseObject (some rc)).2 ↔ (decRefKeep rc).1 = 0) ∧
    (ReleaseAction.destroy ∈ (releaseDevice (some rc)).2 ↔ (decRefKeep rc).1 = 0) ∧
    ReleaseAction.lockMutex ∉ (releaseDevice (some rc)).2 := by
  by_cases h : rc = 0 <;> simp [releaseObject, releaseDevice, decRefKeep, h]

/-- C5: every failure signal crossing an entry point is translated to a
`setError` call on the device derived from the handle (or no device) plus a
sentinel return; out-of-memory signals map to `OutOfMemory`, a typed
`Exception` maps to its own code and message, and every other failure maps to
`Unknown`, preserving the signal's message verbatim when it carries one. -/
theorem error_translation (t : Option Nat) (e : Exn) :
    (handleException t e).target = t ∧
    (e.isOutOfMemorySignal = true → (handleException t e).code = .outOfMemory) ∧
    (∀ k m, e = .typed k m → handleException t e = ⟨t, k, m⟩) ∧
    (e.isOutOfMemorySignal = false → (∀ k m, e ≠ .typed k m) →
      (handleException t e).code = .unknown ∧
      (∀ m, e.message = some m → (handleException t e).msg = m)) ∧
    (∀ (α : Type) (hD : Option Device) (sentinel : α),
      catchDevice hD sentinel (.error e) =
        (hD.map (fun d => d.recordError (handleException (hD.map Device.id) e)), sentinel,
          some (handleException (hD.map Device.id) e))) ∧
    (∀ (α : Type) (hF : Option Filter) (sentinel : α),
      catchFilter hF sentinel (.error e) =
        (hF.map (fun g => { g with device := g.device.recordError (handleException (hF.map (fun g => g.device.id)) e) }),
          sentinel, some (handleException (hF.map (fun g => g.device.id)) e))) := by
  refine ⟨?_, ?_, ?_, ?_, fun α hD s => rfl, fun α hF s => rfl⟩
  · cases e <;> try rfl
    rename_i oom m
    cases oom <;> rfl
  · intro hoom
    cases e with
    | badAlloc => rfl
    | dnnlErr oom m =>
        cases oom with
        | true => rfl
        | false => simp [Exn.isOutOfMemorySignal] at hoom
    | typed k m => simp [Exn.isOutOfMemorySignal] at hoom
    | stdExc m => simp [Exn.isOutOfMemorySignal] at hoom
    | otherExc => simp [Exn.isOutOfMemorySignal] at hoom
  · intro k m hk
    subst hk
    rfl
  · intro hoom htyped
    cases e with
    | typed k m => exact absurd rfl (htyped k m)
    | badAlloc => simp [Exn.isOutOfMemorySignal] at hoom
    | dnnlErr oom m =>
        cases oom with
        | true => simp [Exn.isOutOfMemorySignal] at hoom
        | false => exact ⟨rfl, by intro m' hm'; simp [Exn.message] at hm'; simp [handleException, hm']⟩
    | stdExc m => exact ⟨rfl, by intro m' hm'; simp [Exn.message] at hm'; simp [handleException, hm']⟩
    | otherExc => exact ⟨rfl, by intro m' hm'; simp [Exn.message] at hm'⟩

/-- C9: an `ImageDesc` construction succeeds only when `width ≤ maxDim`,
`height ≤ maxDim` and `width·height·channels ≤ INT32_MAX`, and any violation
of these bounds raises `InvalidArgument` ("image size too large").  `maxDim`
is quantified (its value is declared outside the provided sources), bounded
so that the 64-bit size products cannot wrap. -/
theorem image_size_guard (maxDim : Nat) (format : Format) (w h pbs rbs : Nat)
    (hmax : maxDim ≤ 2 ^ 30) :
    (∀ desc : ImageDesc, ImageDesc.make maxDim format w h pbs rbs = .ok desc →
      w ≤ maxDim ∧ h ≤ maxDim ∧ w * h * format.getC ≤ intMax) ∧
    (w > maxDim ∨ h > maxDim ∨ w * h * format.getC > intMax →
      ImageDesc.make maxDim format w h pbs rbs =
        .error (.typed .invalidArgument "image size too large")) := by
  have hszt : w ≤ maxDim → h ≤ maxDim →
      szt (szt (w * h) * format.getC) = w * h * format.getC := by
    intro hw hh
    have hwh : w * h < 2 ^ 64 :=
      lt_of_le_of_lt (Nat.mul_le_mul (hw.trans hmax) (hh.trans hmax)) (by norm_num)
    rw [szt_eq_of_lt hwh]
    have hall : w * h * format.getC < 2 ^ 64 :=
      lt_of_le_of_lt
        (Nat.mul_le_mul (Nat.mul_le_mul (hw.trans hmax) (hh.trans hmax)) (getC_le_four format))
        (by norm_num)
    exact szt_eq_of_lt hall
  constructor
  · intro desc hok
    obtain ⟨hg, -, -, -⟩ := (ImageDesc.make_ok_iff maxDim format w h pbs rbs desc).mp hok
    push_neg at hg
    obtain ⟨hw, hh, hp⟩ := hg
    refine ⟨hw, hh, ?_⟩
    rw [hszt hw hh] at hp
    exact hp
  · intro hviol
    have hg : w > maxDim ∨ h > maxDim ∨ szt (szt (w * h) * format.getC) > intMax := by
      rcases hviol with hw | hh | hp
      · exact Or.inl hw
      · exact Or.inr (Or.inl hh)
      · by_cases hw : w ≤ maxDim
        · by_cases hh : h ≤ maxDim
          · exact Or.inr (Or.inr (by rw [hszt hw hh]; exact hp))
          · exact Or.inr (Or.inl (not_le.mp hh))
        · exact Or.inl (not_le.mp hw)
    unfold ImageDesc.make
    rw [if_pos hg]

/-- C9 witness: the guard evaluated at a width above a concrete dimension
limit. -/
theorem image_size_guard_witness :
    ImageDesc.make 65536 .float 70000 1 0 0 =
      .error (.typed .invalidArgument "image size too large") :=
  (image_size_guard 65536 .float 70000 1 0 0 (by norm_num)).2 (Or.inl (by norm_num))

/-- C3 amended: when `pixelByteStride = 0` it defaults to the format size, and
when `rowByteStride = 0` it defaults to `width * wByteStride`; an explicit
stride below the respective bound raises `InvalidArgument`.  The concrete
instance (Float3, width 1024, height 1024, pixelByteStride 8,
rowByteStride 0) raises `InvalidArgument`, since 8 is smaller than the
12-byte pixel size of Float3. -/
theorem stride_defaulting (maxDim : Nat) (format : Format) (w h pbs rbs : Nat)
    (hmax : maxDim ≤ 2 ^ 30) (hpbs : pbs < 2 ^ 32) :
    (∀ desc : ImageDesc, ImageDesc.make maxDim format w h pbs rbs = .ok desc →
      (pbs = 0 → desc.wByteStride = getFormatSize format) ∧
      (pbs ≠ 0 → desc.wByteStride = pbs) ∧
      (rbs = 0 → desc.hByteStride = w * desc.wByteStride) ∧
      (rbs ≠ 0 → desc.hByteStride = rbs)) ∧
    (pbs ≠ 0 → pbs < getFormatSize format →
      ∃ m, ImageDesc.make maxDim format w h pbs rbs = .error (.typed .invalidArgument m)) ∧
    (rbs ≠ 0 → rbs < w * (if pbs = 0 then getFormatSize format else pbs) →
      ∃ m, ImageDesc.make maxDim format w h pbs rbs = .error (.typed .invalidArgument m)) ∧
    ImageDesc.make 65536 .float3 1024 1024 8 0 =
      .error (.typed .invalidArgument "pixel stride smaller than pixel size") := by
  have hwbs : (if pbs = 0 then getFormatSize format else pbs) < 2 ^ 32 := by
    split
    · exact lt_of_le_of_lt (getFormatSize_le_sixteen format) (by norm_num)
    · exact hpbs
  have hnw : w ≤ maxDim →
      szt (w * (if pbs = 0 then getFormatSize format else pbs)) =
        w * (if pbs = 0 then getFormatSize format else pbs) := by
    intro hw
    exact szt_eq_of_lt
      (lt_of_le_of_lt (Nat.mul_le_mul (hw.trans hmax) hwbs.le) (by norm_num))
  refine ⟨?_, ?_, ?_, by decide⟩
  · intro desc hok
    obtain ⟨hg, -, -, hdesc⟩ := (ImageDesc.make_ok_iff maxDim format w h pbs rbs desc).mp hok
    push_neg at hg
    subst hdesc
    refine ⟨?_, ?_, ?_, ?_⟩
    · intro h0; simp [h0]
    · intro h0; simp [h0]
    · intro h0
      simp [h0]
      split
      · exact szt_eq_of_lt (lt_of_le_of_lt
          (Nat.mul_le_mul (hg.1.trans hmax)
            (le_trans (getFormatSize_le_sixteen format) (by norm_num : (16 : Nat) ≤ 2 ^ 32)))
          (by norm_num))
      · exact szt_eq_of_lt (lt_of_le_of_lt
          (Nat.mul_le_mul (hg.1.trans hmax) hpbs.le) (by norm_num))
    · intro h0; simp [h0]
  · intro hp0 hplt
    cases hres : ImageDesc.make maxDim format w h pbs rbs with
    | error e =>
        obtain ⟨m, hm⟩ := ImageDesc.make_error_code maxDim format w h pbs rbs e hres
        exact ⟨m, by rw [hm]⟩
    | ok desc =>
        obtain ⟨-, hpc, -, -⟩ := (ImageDesc.make_ok_iff maxDim format w h pbs rbs desc).mp hres
        exact absurd hplt (hpc hp0)
  · intro hr0 hrlt
    cases hres : ImageDesc.make maxDim format w h pbs rbs with
    | error e =>
        obtain ⟨m, hm⟩ := ImageDesc.make_error_code maxDim format w h pbs rbs e hres
        exact ⟨m, by rw [hm]⟩
    | ok desc =>
        obtain ⟨hg, -, hrc, -⟩ := (ImageDesc.make_ok_iff maxDim format w h pbs rbs desc).mp hres
        push_neg at hg
        rw [hnw hg.1] at hrc
        exact absurd hrlt (hrc hr0)

/-- C3 counterexample: the claimed concrete instance (Float3, width 1024,
height 1024, pixelByteStride 8, rowByteStride 0) does not yield a descriptor
with wByteStride 8; construction fails with `InvalidArgument` because 8 is
smaller than the 12-byte pixel size of Float3. -/
theorem stride_defaulting_counterexample :
    ImageDesc.make 65536 .float3 1024 1024 8 0 =
      .error (.typed .invalidArgument "pixel stride smaller than pixel size") ∧
    (ImageDesc.make 65536 .float3 1024 1024 8 0).isOk = false := by
  exact ⟨by decide, by decide⟩

/-- C3 witness: the defaulting rule for rowByteStride evaluated on a Half3
image (6-byte pixels) with an explicit pixel stride of 8. -/
theorem stride_defaulting_witness :
    (⟨1024, 1024, Format.half3, 8, 8192⟩ : ImageDesc).hByteStride =
      1024 * (⟨1024, 1024, Format.half3, 8, 8192⟩ : ImageDesc).wByteStride :=
  ((stride_defaulting 65536 Format.half3 1024 1024 8 0 (by norm_num) (by norm_num)).1
    ⟨1024, 1024, Format.half3, 8, 8192⟩ (by decide)).2.2.1 rfl

/-- C5 witness: the translation evaluated on a backend out-of-memory signal at
a concrete device. -/
theorem error_translation_witness :
    (handleException (some 3) (Exn.dnnlErr true "cudaMalloc failed")).code = .outOfMemory :=
  (error_translation (some 3) (Exn.dnnlErr true "cudaMalloc failed")).2.1 rfl

/-- C4: on a device that has not been committed, `oidnNewBuffer` and
`oidnNewFilter` raise `InvalidOperation` and return the null handle; after
`oidnCommitDevice` both succeed, returning non-null handles with no error
set. -/
theorem commit_gate (d : Device) (byteSize : Nat) (type : String)
    (hunc : d.committed = false) (hclean : d.errorSlot = (Error.none, "")) :
    (oidnNewBuffer (some d) byteSize).2.1 = none ∧
    (oidnNewBuffer (some d) byteSize).2.2 =
      some ⟨some d.id, .invalidOperation, "the device is not committed"⟩ ∧
    (oidnNewFilter (some d) type).2.1 = none ∧
    (oidnNewFilter (some d) type).2.2 =
      some ⟨some d.id, .invalidOperation, "the device is not committed"⟩ ∧
    (oidnCommitDevice (some d)).1 = some d.commit ∧
    (oidnNewBuffer (some d.commit) byteSize).2.1 = some (d.commit.engineNewBuffer byteSize) ∧
    (oidnNewBuffer (some d.commit) byteSize).2.2 = none ∧
    (oidnNewFilter (some d.commit) type).2.1 = some (d.commit.newFilter type) ∧
    (oidnNewFilter (some d.commit) type).2.2 = none ∧
    d.commit.errorSlot = (Error.none, "") := by
  refine ⟨?_, ?_, ?_, ?_, ?_, ?_, ?_, ?_, ?_, ?_⟩ <;>
    simp [oidnNewBuffer, oidnNewFilter, oidnCommitDevice, catchDevice, getHandle,
      Device.checkCommitted, Device.commit, hunc, hclean, handleException,
      Bind.bind, Except.bind, Pure.pure, Except.pure]

/-- C4 witness: the gate evaluated on a concrete uncommitted device. -/
theorem commit_gate_witness :
    (oidnNewBuffer (some ⟨1, .cpu, false, (Error.none, ""), 0⟩) 1024).2.1 = none :=
  (commit_gate ⟨1, .cpu, false, (Error.none, ""), 0⟩ 1024 "RT" rfl rfl).1

/-- C6: `oidnSetFilterImage` succeeds only when the buffer's device is the
filter's device; when the devices differ it raises `InvalidArgument` with a
message mentioning "different devices" and leaves the filter's image slots
unchanged. -/
theorem cross_device_image (maxDim : Nat) (f : Filter) (b : Buffer) (name : String)
    (format : Format) (w h off pbs rbs : Nat) :
    (b.deviceId ≠ f.device.id →
      (oidnSetFilterImage maxDim (some f) name (some b) format w h off pbs rbs).2.2 =
        some ⟨some f.device.id, .invalidArgument,
          "the specified objects are bound to different devices"⟩ ∧
      (∃ s t : String,
        "the specified objects are bound to different devices" = s ++ "different devices" ++ t) ∧
      (∀ f', (oidnSetFilterImage maxDim (some f) name (some b) format w h off pbs rbs).1 =
          some f' → f'.images = f.images)) ∧
    ((oidnSetFilterImage maxDim (some f) name (some b) format w h off pbs rbs).2.2 = none →
      b.deviceId = f.device.id) := by
  constructor
  · intro hne
    refine ⟨?_, ⟨"the specified objects are bound to ", "", by decide⟩, ?_⟩
    · simp [oidnSetFilterImage, catchFilter, getHandle, hne, handleException,
        Bind.bind, Except.bind, Pure.pure, Except.pure]
    · intro f' h1
      simp [oidnSetFilterImage, catchFilter, getHandle, hne, handleException,
        Bind.bind, Except.bind, Pure.pure, Except.pure, Device.recordError] at h1
      rw [← h1]
  · intro hok
    by_contra hne
    simp [oidnSetFilterImage, catchFilter, getHandle, hne, handleException,
      Bind.bind, Except.bind, Pure.pure, Except.pure] at hok

/-- C6 witness: the rejection evaluated on a concrete filter on device 1 and a
buffer on device 2. -/
theorem cross_device_image_witness :
    (oidnSetFilterImage 65536 (some ⟨⟨1, .cpu, true, (Error.none, ""), 0⟩, "RT", []⟩) "color"
        (some ⟨0, 2, 4096, 1⟩) .float 1 1 0 0 0).2.2 =
      some ⟨some 1, .invalidArgument, "the specified objects are bound to different devices"⟩ :=
  ((cross_device_image 65536 ⟨⟨1, .cpu, true, (Error.none, ""), 0⟩, "RT", []⟩ ⟨0, 2, 4096, 1⟩
    "color" .float 1 1 0 0 0).1 (by decide)).1

/-- C7: on a committed device, importing external memory fails with
`InvalidArgument` when the requested external memory type is not in the
device's advertised set (both the FD and the Win32-handle variants), and the
Win32-handle variant additionally fails with `InvalidArgument` unless exactly
one of the handle and the name is non-null. -/
theorem external_memory_import (d : Device) (fdType : Nat) (fd : Int)
    (handleType : Nat) (handle name : Bool) (byteSize : Nat)
    (hc : d.committed = true) :
    (fdType &&& d.externalMemoryTypes = 0 →
      (oidnNewSharedBufferFromFD (some d) fdType fd byteSize).2.1 = none ∧
      (oidnNewSharedBufferFromFD (some d) fdType fd byteSize).2.2 =
        some ⟨some d.id, .invalidArgument, "external memory type not supported by the device"⟩) ∧
    (handleType &&& d.externalMemoryTypes = 0 →
      (oidnNewSharedBufferFromWin32Handle (some d) handleType handle name byteSize).2.1 = none ∧
      (oidnNewSharedBufferFromWin32Handle (some d) handleType handle name byteSize).2.2 =
        some ⟨some d.id, .invalidArgument, "external memory type not supported by the device"⟩) ∧
    (handleType &&& d.externalMemoryTypes ≠ 0 → handle = name →
      (oidnNewSharedBufferFromWin32Handle (some d) handleType handle name byteSize).2.1 = none ∧
      (oidnNewSharedBufferFromWin32Handle (some d) handleType handle name byteSize).2.2 =
        some ⟨some d.id, .invalidArgument,
          "exactly one of the external memory handle and name must be non-null"⟩) := by
  refine ⟨?_, ?_, ?_⟩
  · intro hz
    constructor <;>
      simp [oidnNewSharedBufferFromFD, catchDevice, getHandle, Device.checkCommitted,
        hc, hz, handleException, Bind.bind, Except.bind, Pure.pure, Except.pure]
  · intro hz
    constructor <;>
      simp [oidnNewSharedBufferFromWin32Handle, catchDevice, getHandle,
        Device.checkCommitted, hc, hz, handleException, Bind.bind, Except.bind, Pure.pure, Except.pure]
  · intro hnz heq
    subst heq
    constructor <;>
      cases handle <;>
        simp [oidnNewSharedBufferFromWin32Handle, catchDevice, getHandle,
          Device.checkCommitted, hc, hnz, handleException, Bind.bind, Except.bind, Pure.pure, Except.pure]

/-- C7 witness: the Win32 variant with both the handle and the name null on a
concrete committed device advertising the requested type. -/
theorem external_memory_import_witness :
    (oidnNewSharedBufferFromWin32Handle (some ⟨1, .cpu, true, (Error.none, ""), 7⟩)
        1 false false 4096).2.1 = none :=
  ((external_memory_import ⟨1, .cpu, true, (Error.none, ""), 7⟩ 1 0 1 false false 4096
    rfl).2.2 (by decide) rfl).1

/-- C8: for the SYCL async execute entry point with a requested completion
event, one enqueued event is output as-is, zero enqueued events output the
default-constructed empty event, and more than one event raises a logic
error that is surfaced through the error channel as kind `Unknown`. -/
theorem sycl_done_event (f : Filter) (n : Int) (es : List SYCLEvent) (e : SYCLEvent)
    (hs : f.device.backend = .sycl) (hn : 0 ≤ n) :
    ((oidnExecuteSYCLFilterAsync (some f) n true [e]).2.1 = some e ∧
      (oidnExecuteSYCLFilterAsync (some f) n true [e]).2.2 = none) ∧
    ((oidnExecuteSYCLFilterAsync (some f) n true []).2.1 = some .empty ∧
      (oidnExecuteSYCLFilterAsync (some f) n true []).2.2 = none) ∧
    (2 ≤ es.length →
      (oidnExecuteSYCLFilterAsync (some f) n true es).2.1 = none ∧
      (oidnExecuteSYCLFilterAsync (some f) n true es).2.2 =
        some ⟨some f.device.id, .unknown, "missing barrier after filter kernels"⟩) := by
  have hn' : ¬ n < 0 := not_lt.mpr hn
  refine ⟨?_, ?_, ?_⟩
  · constructor <;>
      simp [oidnExecuteSYCLFilterAsync, catchFilter, getHandle, hn', hs,
        handleException, Bind.bind, Except.bind, Pure.pure, Except.pure]
  · constructor <;>
      simp [oidnExecuteSYCLFilterAsync, catchFilter, getHandle, hn', hs,
        handleException, Bind.bind, Except.bind, Pure.pure, Except.pure]
  · intro hlen
    match es with
    | [] => simp at hlen
    | [a] => simp at hlen
    | a :: b :: t =>
        constructor <;>
          simp [oidnExecuteSYCLFilterAsync, catchFilter, getHandle, hn', hs,
            handleException, Bind.bind, Except.bind, Pure.pure, Except.pure]

/-- C8 witness: two enqueued events without a barrier on a concrete SYCL
filter surface the missing-barrier logic error as `Unknown`. -/
theorem sycl_done_event_witness :
    (oidnExecuteSYCLFilterAsync (some ⟨⟨1, .sycl, true, (Error.none, ""), 0⟩, "RT", []⟩) 0 true
        [.ev 10, .ev 11]).2.2 =
      some ⟨some 1, .unknown, "missing barrier after filter kernels"⟩ :=
  ((sycl_done_event ⟨⟨1, .sycl, true, (Error.none, ""), 0⟩, "RT", []⟩ 0
    [.ev 10, .ev 11] .empty rfl (by decide)).2.2 (by decide)).2

/-- C10: the raw-pointer `Image` constructor with a null pointer succeeds only
when `byteOffset + byteSize = 0` and otherwise raises `InvalidArgument`
("buffer region out of range"); consequently `oidnSetSharedFilterImage` with a
null device pointer and a non-empty image sets that error and binds
nothing. -/
theorem null_pointer_image (maxDim : Nat) (format : Format) (w h off pbs rbs : Nat)
    (name : String) (f : Filter) (desc : ImageDesc)
    (hdesc : ImageDesc.make maxDim format w h pbs rbs = .ok desc)
    (hnwr : off + desc.getByteSize < 2 ^ 64)
    (hw : w < 2 ^ 31) (hh : h < 2 ^ 31) :
    (off + desc.getByteSize = 0 →
      Image.makeShared maxDim 0 format w h off pbs rbs = .ok ⟨desc, none, 0, 0⟩) ∧
    (off + desc.getByteSize > 0 →
      Image.makeShared maxDim 0 format w h off pbs rbs =
        .error (.typed .invalidArgument "buffer region out of range")) ∧
    (desc.getByteSize > 0 →
      (oidnSetSharedFilterImage maxDim (some f) name 0 format w h off pbs rbs).2.2 =
        some ⟨some f.device.id, .invalidArgument, "buffer region out of range"⟩ ∧
      ∀ f', (oidnSetSharedFilterImage maxDim (some f) name 0 format w h off pbs rbs).1 =
          some f' → f'.images = f.images) := by
  have hsz : szt (off + desc.getByteSize) = off + desc.getByteSize := szt_eq_of_lt hnwr
  have hms : Image.makeShared maxDim 0 format w h off pbs rbs =
      if 0 = 0 ∧ szt (off + desc.getByteSize) > 0 then
        .error (.typed .invalidArgument "buffer region out of range")
      else
        .ok { toImageDesc := desc, bufferId := none, byteOffset := 0,
              ptr := szt (0 + off) } := by
    unfold Image.makeShared
    rw [hdesc]
  have herr : off + desc.getByteSize > 0 →
      Image.makeShared maxDim 0 format w h off pbs rbs =
        .error (.typed .invalidArgument "buffer region out of range") := by
    intro hpos
    rw [hms, if_pos ⟨rfl, by rw [hsz]; exact hpos⟩]
  refine ⟨?_, herr, ?_⟩
  · intro h0
    have hoff : off = 0 := Nat.eq_zero_of_add_eq_zero_right h0
    rw [hms, if_neg (by rw [hsz, h0]; simp)]
    subst hoff
    rfl
  · intro hbs
    have hpos : off + desc.getByteSize > 0 := lt_of_lt_of_le hbs (Nat.le_add_left _ _)
    have he := herr hpos
    constructor
    · simp [oidnSetSharedFilterImage, catchFilter, getHandle,
        i32toSize_eq_of_lt hw, i32toSize_eq_of_lt hh, he, handleException,
        Bind.bind, Except.bind, Pure.pure, Except.pure]
    · intro f' h1
      simp [oidnSetSharedFilterImage, catchFilter, getHandle,
        i32toSize_eq_of_lt hw, i32toSize_eq_of_lt hh, he, handleException,
        Bind.bind, Except.bind, Pure.pure, Except.pure, Device.recordError] at h1
      rw [← h1]

/-- C10 witness: binding a null raw pointer as a 1x1 float image is rejected
and leaves the filter's slots unchanged. -/
theorem null_pointer_image_witness :
    (oidnSetSharedFilterImage 65536 (some ⟨⟨1, .cpu, true, (Error.none, ""), 0⟩, "RT", []⟩)
        "color" 0 .float 1 1 0 0 0).2.2 =
      some ⟨some 1, .invalidArgument, "buffer region out of range"⟩ :=
  ((null_pointer_image 65536 .float 1 1 0 0 0 "color"
    ⟨⟨1, .cpu, true, (Error.none, ""), 0⟩, "RT", []⟩ ⟨1, 1, .float, 4, 4⟩
    (by decide) (by decide) (by norm_num) (by norm_num)).2.2 (by decide)).1

end oidn
